
import Mathlib

/-!
Verification of the tournament decoding layer of the `challonge-rs` repository
(`src/tournament.rs`), as a shallow embedding in Lean 4.

The generic value model mirrors `serde_json::Value` (serde_json 0.x, with
distinct signed/unsigned/float number variants and objects as ordered maps
with unique keys).  Rust `Result`/`Option` plumbing, `try!` and `.unwrap()`
panics are modelled explicitly: a decode computation yields `DResult`, whose
`panic` constructor stands for a Rust panic (abort), distinct from returning
an `Err` value.
-/

set_option maxHeartbeats 4000000
set_option maxRecDepth 4000

/-- Value domain of a Rust `f64` as the decoder observes it: a finite value
(held exactly as a rational, since the decoder only stores parsed numbers
and never computes with them), a signed infinity, or a NaN with its sign
bit.  Binary rounding of finite values is not modelled; no claim inspects
it. -/
inductive F64 where
  | finite (q : Rat)
  | inf (neg : Bool)
  | nan (neg : Bool)
deriving DecidableEq

/-- Generic JSON value tree, mirroring `serde_json::Value` (0.x): null,
booleans, signed/unsigned integers, floating numbers, strings, arrays, and
objects (association lists with unique keys, standing in for
`BTreeMap<String, Value>`). -/
inductive Json where
  | null : Json
  | bool (b : Bool) : Json
  | i64 (n : Int) : Json
  | u64 (n : Nat) : Json
  | f64 (x : F64) : Json
  | str (s : String) : Json
  | arr (xs : List Json) : Json
  | obj (kvs : List (String × Json)) : Json

/-- Object payload of a JSON object: the association list of key/value pairs. -/
abbrev JObj := List (String × Json)

/-- First-match lookup in an object, mirroring `BTreeMap::get`. -/
def jlookup : JObj → String → Option Json
  | [], _ => none
  | (k, v) :: rest, key => if k = key then some v else jlookup rest key

/-- Removal of a key from an object, mirroring `BTreeMap::remove` on the
unique-key maps produced by the JSON parser (every binding of the key is
dropped). -/
def jremove : JObj → String → JObj
  | [], _ => []
  | (k, v) :: rest, key =>
      if k = key then jremove rest key else (k, v) :: jremove rest key

/-- Replacement of the binding of a key (used to state the claims that modify
one field of a payload): the new binding shadows and supersedes any old one. -/
def jset (m : JObj) (key : String) (v : Json) : JObj :=
  (key, v) :: jremove m key

/-- Decode error, modelled from the spec: the repository's `error::Error` is
not under `src/`; per the spec (§7) the decoder uses a single `Decode` kind
carrying a short static reason string and the offending generic value. -/
inductive Error where
  | Decode (reason : String) (v : Json) : Error

/-- Outcome of running a fallible Rust computation: a returned value, a
returned error (`Err`), or a panic (`unwrap` on `None`/`Err`). -/
inductive DResult (α : Type) where
  | ok (a : α) : DResult α
  | err (e : Error) : DResult α
  | panic : DResult α

def DResult.isErr {α : Type} : DResult α → Bool
  | .err _ => true
  | _ => false

def DResult.map {α β : Type} (f : α → β) : DResult α → DResult β
  | .ok a => .ok (f a)
  | .err e => .err e
  | .panic => .panic

def DResult.toOption {α : Type} : DResult α → Option α
  | .ok a => some a
  | _ => none

/-- State-threading decode computation over the mutable tournament map
(`&mut BTreeMap<String, Value>` in the source). -/
def DecM (α : Type) : Type := JObj → DResult (α × JObj)

def DecM.pure {α : Type} (a : α) : DecM α := fun m => .ok (a, m)

def DecM.bind {α β : Type} (x : DecM α) (f : α → DecM β) : DecM β := fun m =>
  match x m with
  | .ok (a, m') => f a m'
  | .err e => .err e
  | .panic => .panic

instance DecM.instMonad : Monad DecM where
  pure := DecM.pure
  bind := DecM.bind

/-- Runs a decode computation and discards the final map, as the source does
when the decoded record is returned and the consumed map is dropped. -/
def runDec {α : Type} (x : DecM α) (m : JObj) : DResult α :=
  match x m with
  | .ok (a, _) => .ok a
  | .err e => .err e
  | .panic => .panic

/-- The `remove` helper of `tournament.rs`, lifted into the decode monad:
`map.remove(key).ok_or(Error::Decode("Unexpected absent key", key))`, with
`try!` propagation. -/
def takeKey (key : String) : DecM Json := fun m =>
  match jlookup m key with
  | some v => .ok (v, jremove m key)
  | none => .err (.Decode "Unexpected absent key" (.str key))

/-- Rust `Option::unwrap`: the value when present, a panic when absent. -/
def unwrapD {α : Type} (o : Option α) : DecM α := fun m =>
  match o with
  | some a => .ok (a, m)
  | none => .panic

/-- Mirrors `serde_json::Value::as_boolean` (0.x): a boolean for `Bool`,
nothing otherwise. -/
def asBoolean : Json → Option Bool
  | .bool b => some b
  | _ => none

/-- Mirrors `serde_json::Value::as_string` (0.x): the string for `String`,
nothing otherwise. -/
def asString : Json → Option String
  | .str s => some s
  | _ => none

/-- Mirrors `serde_json::Value::as_u64` (0.x): unsigned integers directly,
non-negative signed integers by conversion, nothing otherwise. -/
def asU64 : Json → Option Nat
  | .u64 n => some n
  | .i64 n => if 0 ≤ n then some n.toNat else none
  | _ => none

/-- Mirrors `serde_json::Value::as_array` (0.x). -/
def asArray : Json → Option (List Json)
  | .arr xs => some xs
  | _ => none

/-- Longest prefix of decimal digits of a character list, as digit values,
together with the remaining characters. -/
def takeDigits : List Char → List Nat × List Char
  | [] => ([], [])
  | c :: rest =>
      if c.isDigit then
        let (ds, r) := takeDigits rest
        (((c.toNat - 48) :: ds), r)
      else ([], c :: rest)

/-- Value of a big-endian list of decimal digit values. -/
def digitsVal (ds : List Nat) : Nat := ds.foldl (fun acc d => 10 * acc + d) 0

/-- Models `str::parse::<f64>` from the Rust standard library: an optional
sign followed by either one of the case-insensitive special words `inf`,
`infinity`, `nan`, or a decimal/scientific number (digits with an optional
fractional part, or a fractional part alone, then an optional exponent).
The whole input must be consumed and a number needs at least one mantissa
digit, so in particular the empty string is rejected. -/
def parseF64 (s : String) : Option F64 :=
  let core : List Char → Int → Option Rat := fun cs sign =>
    let (ip, r1) := takeDigits cs
    let withExp : List Nat → List Nat → List Char → Option Rat :=
      fun intDs fracDs r =>
        if intDs.isEmpty ∧ fracDs.isEmpty then none
        else
          let mant : Rat :=
            (sign * (digitsVal (intDs ++ fracDs) : Int) : Int) /
              ((10 : Rat) ^ fracDs.length)
          match r with
          | [] => some mant
          | e :: r2 =>
              if e = 'e' ∨ e = 'E' then
                let (esign, r3) : Int × List Char :=
                  match r2 with
                  | '+' :: r3 => (1, r3)
                  | '-' :: r3 => (-1, r3)
                  | r3 => (1, r3)
                let (eds, r4) := takeDigits r3
                if eds.isEmpty ∨ ¬ r4.isEmpty then none
                else if 0 ≤ esign then some (mant * (10 : Rat) ^ digitsVal eds)
                else some (mant / (10 : Rat) ^ digitsVal eds)
              else none
    match r1 with
    | '.' :: r2 =>
        let (fp, r3) := takeDigits r2
        withExp ip fp r3
    | r => withExp ip [] r
  let go : List Char → Bool → Option F64 := fun cs neg =>
    let low := cs.map Char.toLower
    if low = ['i', 'n', 'f'] ∨ low = ['i', 'n', 'f', 'i', 'n', 'i', 't', 'y']
    then some (.inf neg)
    else if low = ['n', 'a', 'n'] then some (.nan neg)
    else (core cs (if neg then -1 else 1)).map F64.finite
  match s.toList with
  | '+' :: r => go r false
  | '-' :: r => go r true
  | r => go r false

/-- Fixed-offset date-time, mirroring the component content of
`chrono::DateTime<FixedOffset>` as produced by RFC 3339 parsing. -/
structure DateTimeFO where
  year : Nat
  month : Nat
  day : Nat
  hour : Nat
  minute : Nat
  second : Nat
  nanos : Nat
  offsetMinutes : Int
deriving DecidableEq

/-- Placeholder date-time used only under `Option.getD` at places where a
successful parse is already hypothesised. -/
def dummyDT : DateTimeFO := ⟨0, 0, 0, 0, 0, 0, 0, 0⟩

/-- Days in a month of the proleptic Gregorian calendar. -/
def daysInMonth (y m : Nat) : Nat :=
  if m = 2 then
    if y % 4 = 0 ∧ (y % 100 ≠ 0 ∨ y % 400 = 0) then 29 else 28
  else if m = 4 ∨ m = 6 ∨ m = 9 ∨ m = 11 then 30
  else 31

/-- Numeric value of a two-digit group, when both characters are digits. -/
def twoDigits (a b : Char) : Option Nat :=
  if a.isDigit ∧ b.isDigit then some ((a.toNat - 48) * 10 + (b.toNat - 48))
  else none

/-- Parses the tail of an RFC 3339 date-time after the seconds: an optional
fractional part, then a mandatory offset (`Z`, `z`, or a signed `HH:MM`),
consuming the whole input. -/
def parseFracOffset : List Char → Option (Nat × Int)
  | cs =>
    let offset : List Char → Option Int := fun r =>
      match r with
      | ['Z'] => some 0
      | ['z'] => some 0
      | [sgn, h1, h2, ':', m1, m2] =>
          if sgn = '+' ∨ sgn = '-' then
            match twoDigits h1 h2, twoDigits m1 m2 with
            | some oh, some om =>
                if oh ≤ 23 ∧ om ≤ 59 then
                  let mins : Int := oh * 60 + om
                  some (if sgn = '-' then -mins else mins)
                else none
            | _, _ => none
          else none
      | _ => none
    match cs with
    | '.' :: r =>
        let (fds, r2) := takeDigits r
        if fds.isEmpty then none
        else
          let padded := (fds.take 9) ++ List.replicate (9 - fds.length) 0
          match offset r2 with
          | some om => some (digitsVal padded, om)
          | none => none
    | r =>
        match offset r with
        | some om => some (0, om)
        | none => none

/-- Models `chrono::DateTime::parse_from_rfc3339`: a `YYYY-MM-DDTHH:MM:SS`
core (the date/time separator may be lowercase), an optional fraction, and a
mandatory numeric or `Z` offset, with calendar and range validation. -/
def parseRFC3339 (s : String) : Option DateTimeFO :=
  match s.toList with
  | y1 :: y2 :: y3 :: y4 :: '-' :: m1 :: m2 :: '-' :: d1 :: d2 :: tc ::
      h1 :: h2 :: ':' :: mi1 :: mi2 :: ':' :: s1 :: s2 :: rest =>
      if (tc = 'T' ∨ tc = 't') ∧ y1.isDigit ∧ y2.isDigit then
        match twoDigits y3 y4, twoDigits m1 m2, twoDigits d1 d2,
              twoDigits h1 h2, twoDigits mi1 mi2, twoDigits s1 s2 with
        | some ylo, some mo, some d, some h, some mi, some sec =>
            let y := ((y1.toNat - 48) * 10 + (y2.toNat - 48)) * 100 + ylo
            if 1 ≤ mo ∧ mo ≤ 12 ∧ 1 ≤ d ∧ d ≤ daysInMonth y mo ∧
                h ≤ 23 ∧ mi ≤ 59 ∧ sec ≤ 60 then
              match parseFracOffset rest with
              | some (ns, om) => some ⟨y, mo, d, h, mi, sec, ns, om⟩
              | none => none
            else none
        | _, _, _, _, _, _ => none
      else none
  | _ => none

/-- The four tournament types (`TournamentType` enum of the source). -/
inductive TournamentType where
  | SingleElimination
  | DoubleElimination
  | RoundRobin
  | Swiss
deriving DecidableEq

/-- `TournamentType::to_get_param`: the underscored machine spelling. -/
def TournamentType.toGetParam : TournamentType → String
  | .SingleElimination => "single_elimination"
  | .DoubleElimination => "double_elimination"
  | .RoundRobin => "round_robin"
  | .Swiss => "swiss"

/-- The `fmt::Display` output of `TournamentType`: the space-separated
display spelling written by the single `write_str` of each arm. -/
def TournamentType.displayStr : TournamentType → String
  | .SingleElimination => "single elimination"
  | .DoubleElimination => "double elimination"
  | .RoundRobin => "round robin"
  | .Swiss => "swiss"

/-- `TournamentType::from_str`: accepts the underscored machine spelling and
the space-separated display spelling of each variant; everything else is the
unit error of the `FromStr` impl. -/
def TournamentType.fromStr (s : String) : Except Unit TournamentType :=
  if s = "single_elimination" then .ok .SingleElimination
  else if s = "single elimination" then .ok .SingleElimination
  else if s = "double_elimination" then .ok .DoubleElimination
  else if s = "double elimination" then .ok .DoubleElimination
  else if s = "round_robin" then .ok .RoundRobin
  else if s = "round robin" then .ok .RoundRobin
  else if s = "swiss" then .ok .Swiss
  else .error ()

/-- `TournamentId`: a (subdomain, tournament url) pair or a numeric id. -/
inductive TournamentId where
  | Url (subdomain : String) (tournament_url : String)
  | Id (id : Nat)
deriving DecidableEq

/-- The `fmt::Display` output of `TournamentId`, accumulated through the
formatter buffer exactly as the single `write_str` of each arm does. -/
def TournamentId.fmtWrite : TournamentId → String → String
  | .Url subdomain tournament_url, acc => acc ++ (subdomain ++ "-" ++ tournament_url)
  | .Id id, acc => acc ++ Nat.repr id

/-- Full `Display` rendering of a `TournamentId` (formatter starting empty). -/
def TournamentId.displayStr (t : TournamentId) : String := t.fmtWrite ""

/-- The decoded `Tournament` record, field for field as in the source
(the source field `private` is a Lean keyword and is escaped). -/
structure Tournament where
  accept_attachments : Bool
  allow_participant_match_reporting : Bool
  anonymous_voting : Bool
  created_at : DateTimeFO
  created_by_api : Bool
  credit_capped : Bool
  description : String
  game_id : Nat
  group_stages_enabled : Bool
  hide_forum : Bool
  hide_seeds : Bool
  hold_third_place_match : Bool
  id : Nat
  max_predictions_per_user : Nat
  name : String
  notify_users_when_matches_open : Bool
  notify_users_when_the_tournament_ends : Bool
  open_signup : Bool
  participants_count : Nat
  prediction_method : Nat
  «private» : Bool
  progress_meter : Nat
  pts_for_bye : F64
  pts_for_game_tie : F64
  pts_for_game_win : F64
  pts_for_match_tie : F64
  pts_for_match_win : F64
  quick_advance : Bool
  require_score_agreement : Bool
  rr_pts_for_game_tie : F64
  rr_pts_for_game_win : F64
  rr_pts_for_match_tie : F64
  rr_pts_for_match_win : F64
  sequential_pairings : Bool
  show_rounds : Bool
  started_at : Option DateTimeFO
  swiss_rounds : Nat
  teams : Bool
  tournament_type : TournamentType
  updated_at : DateTimeFO
  url : String
  description_source : String
  full_challonge_url : String
  live_image_url : String
  review_before_finalizing : Bool
  accepting_predictions : Bool
  participants_locked : Bool
  game_name : String
  participants_swappable : Bool
  team_convertable : Bool
  group_stages_were_started : Bool
deriving DecidableEq

/-- The boolean-field idiom of the decoder: `.as_boolean().unwrap_or(false)`. -/
def boolD (v : Json) : Bool := (asBoolean v).getD false

/-- The unsigned-integer idiom: `.as_u64().unwrap_or(0)`. -/
def u64D (v : Json) : Nat := (asU64 v).getD 0

/-- The free-text idiom: `.as_string().unwrap_or("").to_string()`. -/
def strD (v : Json) : String := (asString v).getD ""

/-- The scoring-float idiom:
`.as_string().unwrap_or("").to_owned().parse::<f64>().unwrap_or(0.0)`. -/
def fltD (v : Json) : F64 :=
  (parseF64 ((asString v).getD "")).getD (.finite 0)

/-- The `tournament_type` idiom: read as string (default empty), parse, and
fall back to `SingleElimination` on an unmatched spelling. -/
def ttOf (v : Json) : TournamentType :=
  match TournamentType.fromStr ((asString v).getD "") with
  | .ok t => t
  | .error _ => .SingleElimination

/-- The `started_at` block of the decoder (after its `remove` succeeded):
present exactly when the value is a string that parses as RFC 3339. -/
def startedOf (v : Json) : Option DateTimeFO := (asString v).bind parseRFC3339

/-- The `created_at` expression before its `.unwrap()`:
`parse_from_rfc3339(value.as_string().unwrap_or(""))`. -/
def createdOf (v : Json) : Option DateTimeFO :=
  parseRFC3339 ((asString v).getD "")

/-- The field-extraction body of `Tournament::decode` over the tournament
map, with `try!(remove(..))` steps and `.unwrap()` panics in the exact
evaluation order of the source (the `started_at` block first, then the
struct-literal fields top to bottom); parameterised by the key reader, and
always instantiated with the consuming reader `takeKey` of the source. -/
def decodeFieldsGen (take : String → DecM Json) : DecM Tournament := do
  let vStarted ← take "started_at"
  let v01 ← take "accept_attachments"
  let v02 ← take "allow_participant_match_reporting"
  let v03 ← take "anonymous_voting"
  let vCreated ← take "created_at"
  let dtCreated ← unwrapD (createdOf vCreated)
  let v04 ← take "created_by_api"
  let v05 ← take "credit_capped"
  let v06 ← take "description"
  let v07 ← take "game_id"
  let v08 ← take "id"
  let v09 ← take "name"
  let v10 ← take "group_stages_enabled"
  let v11 ← take "hide_forum"
  let v12 ← take "hide_seeds"
  let v13 ← take "hold_third_place_match"
  let v14 ← take "max_predictions_per_user"
  let v15 ← take "notify_users_when_matches_open"
  let v16 ← take "notify_users_when_the_tournament_ends"
  let v17 ← take "open_signup"
  let v18 ← take "participants_count"
  let v19 ← take "prediction_method"
  let v20 ← take "private"
  let v21 ← take "progress_meter"
  let v22 ← take "pts_for_bye"
  let v23 ← take "pts_for_game_tie"
  let v24 ← take "pts_for_game_win"
  let v25 ← take "pts_for_match_tie"
  let v26 ← take "pts_for_match_win"
  let v27 ← take "quick_advance"
  let v28 ← take "require_score_agreement"
  let v29 ← take "rr_pts_for_game_tie"
  let v30 ← take "rr_pts_for_game_win"
  let v31 ← take "rr_pts_for_match_tie"
  let v32 ← take "rr_pts_for_match_win"
  let v33 ← take "sequential_pairings"
  let v34 ← take "show_rounds"
  let v35 ← take "swiss_rounds"
  let v36 ← take "teams"
  let v37 ← take "tournament_type"
  let vUpdated ← take "updated_at"
  let sUpdated ← unwrapD (asString vUpdated)
  let dtUpdated ← unwrapD (parseRFC3339 sUpdated)
  let v38 ← take "url"
  let v39 ← take "description_source"
  let v40 ← take "full_challonge_url"
  let v41 ← take "live_image_url"
  let v42 ← take "review_before_finalizing"
  let v43 ← take "accepting_predictions"
  let v44 ← take "participants_locked"
  let v45 ← take "game_name"
  let v46 ← take "participants_swappable"
  let v47 ← take "team_convertable"
  let v48 ← take "group_stages_were_started"
  pure {
    accept_attachments := boolD v01
    allow_participant_match_reporting := boolD v02
    anonymous_voting := boolD v03
    created_at := dtCreated
    created_by_api := boolD v04
    credit_capped := boolD v05
    description := strD v06
    game_id := u64D v07
    group_stages_enabled := boolD v10
    hide_forum := boolD v11
    hide_seeds := boolD v12
    hold_third_place_match := boolD v13
    id := u64D v08
    max_predictions_per_user := u64D v14
    name := strD v09
    notify_users_when_matches_open := boolD v15
    notify_users_when_the_tournament_ends := boolD v16
    open_signup := boolD v17
    participants_count := u64D v18
    prediction_method := u64D v19
    «private» := boolD v20
    progress_meter := u64D v21
    pts_for_bye := fltD v22
    pts_for_game_tie := fltD v23
    pts_for_game_win := fltD v24
    pts_for_match_tie := fltD v25
    pts_for_match_win := fltD v26
    quick_advance := boolD v27
    require_score_agreement := boolD v28
    rr_pts_for_game_tie := fltD v29
    rr_pts_for_game_win := fltD v30
    rr_pts_for_match_tie := fltD v31
    rr_pts_for_match_win := fltD v32
    sequential_pairings := boolD v33
    show_rounds := boolD v34
    started_at := startedOf vStarted
    swiss_rounds := u64D v35
    teams := boolD v36
    tournament_type := ttOf v37
    updated_at := dtUpdated
    url := strD v38
    description_source := strD v39
    full_challonge_url := strD v40
    live_image_url := strD v41
    review_before_finalizing := boolD v42
    accepting_predictions := boolD v43
    participants_locked := boolD v44
    game_name := strD v45
    participants_swappable := boolD v46
    team_convertable := boolD v47
    group_stages_were_started := boolD v48 }

/-- `into_map` of the source: an object's map, or the `Expected object`
decode error carrying the offending value. -/
def intoMap : Json → Except Error JObj
  | .obj m => .ok m
  | v => .error (.Decode "Expected object" v)

/-- `Tournament::decode`: unwrap the envelope, then run the field extraction
with the consuming reader over the inner map. -/
def Tournament.decode (value : Json) : DResult Tournament :=
  match intoMap value with
  | .error e => .err e
  | .ok m =>
      match jlookup m "tournament" with
      | none => .err (.Decode "Unexpected absent key" (.str "tournament"))
      | some t =>
          match intoMap t with
          | .error e => .err e
          | .ok tv => runDec (decodeFieldsGen takeKey) tv

/-- Element loop of `decode_tournaments`: successes are kept in order, `Err`
elements are silently dropped, and a panicking element aborts the whole
iteration as a Rust panic unwinds through the loop. -/
def decodeEach : List Json → DResult (List Tournament)
  | [] => .ok []
  | x :: rest =>
      match Tournament.decode x with
      | .ok t => (decodeEach rest).map (fun ts => t :: ts)
      | .err _ => decodeEach rest
      | .panic => .panic

/-- `decode_tournaments`: a non-array yields the empty vector; an array is
decoded element-wise best-effort. -/
def decode_tournaments (value : Json) : DResult (List Tournament) :=
  match asArray value with
  | none => .ok []
  | some xs => decodeEach xs

/-- The `Index` wrapper: a list of tournaments. -/
structure Index where
  tournaments : List Tournament
deriving DecidableEq

/-- `Index::decode`, delegating to `decode_tournaments`. -/
def Index.decode (value : Json) : DResult Index :=
  (decode_tournaments value).map Index.mk

/-- Value of a key of the tournament map, with a null placeholder for the
absent case (only used where presence is already hypothesised). -/
def lookD (tv : JObj) (k : String) : Json := (jlookup tv k).getD .null

/-- The fixed set of keys `Tournament::decode` extracts from the tournament
object, in extraction order. -/
def extractedKeys : List String :=
  ["started_at",
   "accept_attachments",
   "allow_participant_match_reporting",
   "anonymous_voting",
   "created_at",
   "created_by_api",
   "credit_capped",
   "description",
   "game_id",
   "id",
   "name",
   "group_stages_enabled",
   "hide_forum",
   "hide_seeds",
   "hold_third_place_match",
   "max_predictions_per_user",
   "notify_users_when_matches_open",
   "notify_users_when_the_tournament_ends",
   "open_signup",
   "participants_count",
   "prediction_method",
   "private",
   "progress_meter",
   "pts_for_bye",
   "pts_for_game_tie",
   "pts_for_game_win",
   "pts_for_match_tie",
   "pts_for_match_win",
   "quick_advance",
   "require_score_agreement",
   "rr_pts_for_game_tie",
   "rr_pts_for_game_win",
   "rr_pts_for_match_tie",
   "rr_pts_for_match_win",
   "sequential_pairings",
   "show_rounds",
   "swiss_rounds",
   "teams",
   "tournament_type",
   "updated_at",
   "url",
   "description_source",
   "full_challonge_url",
   "live_image_url",
   "review_before_finalizing",
   "accepting_predictions",
   "participants_locked",
   "game_name",
   "participants_swappable",
   "team_convertable",
   "group_stages_were_started"]

/-- Every extracted key is present in the map. -/
def allPresent (tv : JObj) : Bool :=
  extractedKeys.all (fun k => (jlookup tv k).isSome)

/-- The `created_at` value parses on the path the decoder uses. -/
def createdOkB (tv : JObj) : Bool := (createdOf (lookD tv "created_at")).isSome

/-- The `updated_at` value is a string that parses as RFC 3339. -/
def updatedOkB (tv : JObj) : Bool :=
  match asString (lookD tv "updated_at") with
  | some s => (parseRFC3339 s).isSome
  | none => false

/-- Well-formedness of a tournament map in the sense of the spec: every
extracted key is present and the two mandatory timestamps are parseable on
the paths the decoder uses; exactly the conditions under which decode
neither errs nor panics. -/
def WellFormedB (tv : JObj) : Bool :=
  allPresent tv && createdOkB tv && updatedOkB tv

/-- The record `Tournament::decode` assembles from a well-formed tournament
map, each field the documented coercion of that field's value. -/
def mkTournament (tv : JObj) : Tournament where
  accept_attachments := boolD (lookD tv "accept_attachments")
  allow_participant_match_reporting := boolD (lookD tv "allow_participant_match_reporting")
  anonymous_voting := boolD (lookD tv "anonymous_voting")
  created_at := (createdOf (lookD tv "created_at")).getD dummyDT
  created_by_api := boolD (lookD tv "created_by_api")
  credit_capped := boolD (lookD tv "credit_capped")
  description := strD (lookD tv "description")
  game_id := u64D (lookD tv "game_id")
  group_stages_enabled := boolD (lookD tv "group_stages_enabled")
  hide_forum := boolD (lookD tv "hide_forum")
  hide_seeds := boolD (lookD tv "hide_seeds")
  hold_third_place_match := boolD (lookD tv "hold_third_place_match")
  id := u64D (lookD tv "id")
  max_predictions_per_user := u64D (lookD tv "max_predictions_per_user")
  name := strD (lookD tv "name")
  notify_users_when_matches_open := boolD (lookD tv "notify_users_when_matches_open")
  notify_users_when_the_tournament_ends := boolD (lookD tv "notify_users_when_the_tournament_ends")
  open_signup := boolD (lookD tv "open_signup")
  participants_count := u64D (lookD tv "participants_count")
  prediction_method := u64D (lookD tv "prediction_method")
  «private» := boolD (lookD tv "private")
  progress_meter := u64D (lookD tv "progress_meter")
  pts_for_bye := fltD (lookD tv "pts_for_bye")
  pts_for_game_tie := fltD (lookD tv "pts_for_game_tie")
  pts_for_game_win := fltD (lookD tv "pts_for_game_win")
  pts_for_match_tie := fltD (lookD tv "pts_for_match_tie")
  pts_for_match_win := fltD (lookD tv "pts_for_match_win")
  quick_advance := boolD (lookD tv "quick_advance")
  require_score_agreement := boolD (lookD tv "require_score_agreement")
  rr_pts_for_game_tie := fltD (lookD tv "rr_pts_for_game_tie")
  rr_pts_for_game_win := fltD (lookD tv "rr_pts_for_game_win")
  rr_pts_for_match_tie := fltD (lookD tv "rr_pts_for_match_tie")
  rr_pts_for_match_win := fltD (lookD tv "rr_pts_for_match_win")
  sequential_pairings := boolD (lookD tv "sequential_pairings")
  show_rounds := boolD (lookD tv "show_rounds")
  started_at := startedOf (lookD tv "started_at")
  swiss_rounds := u64D (lookD tv "swiss_rounds")
  teams := boolD (lookD tv "teams")
  tournament_type := ttOf (lookD tv "tournament_type")
  updated_at := ((asString (lookD tv "updated_at")).bind parseRFC3339).getD dummyDT
  url := strD (lookD tv "url")
  description_source := strD (lookD tv "description_source")
  full_challonge_url := strD (lookD tv "full_challonge_url")
  live_image_url := strD (lookD tv "live_image_url")
  review_before_finalizing := boolD (lookD tv "review_before_finalizing")
  accepting_predictions := boolD (lookD tv "accepting_predictions")
  participants_locked := boolD (lookD tv "participants_locked")
  game_name := strD (lookD tv "game_name")
  participants_swappable := boolD (lookD tv "participants_swappable")
  team_convertable := boolD (lookD tv "team_convertable")
  group_stages_were_started := boolD (lookD tv "group_stages_were_started")

/-- The tournament object of the repository's own test payload
(`test_tournament_parse`), including the keys the decoder does not extract. -/
def sampleTV : JObj :=
  [("accept_attachments", .bool false),
   ("allow_participant_match_reporting", .bool true),
   ("anonymous_voting", .bool false),
   ("category", .null),
   ("check_in_duration", .null),
   ("completed_at", .null),
   ("created_at", .str "2015-01-19T16:47:30-05:00"),
   ("created_by_api", .bool false),
   ("credit_capped", .bool false),
   ("description", .str "sample description"),
   ("game_id", .u64 600),
   ("group_stages_enabled", .bool false),
   ("hide_forum", .bool false),
   ("hide_seeds", .bool false),
   ("hold_third_place_match", .bool false),
   ("id", .u64 1086875),
   ("max_predictions_per_user", .u64 1),
   ("name", .str "Sample Tournament 1"),
   ("notify_users_when_matches_open", .bool true),
   ("notify_users_when_the_tournament_ends", .bool true),
   ("open_signup", .bool false),
   ("participants_count", .u64 4),
   ("prediction_method", .u64 0),
   ("predictions_opened_at", .null),
   ("private", .bool false),
   ("progress_meter", .u64 0),
   ("pts_for_bye", .str "1.0"),
   ("pts_for_game_tie", .str "0.0"),
   ("pts_for_game_win", .str "0.0"),
   ("pts_for_match_tie", .str "0.5"),
   ("pts_for_match_win", .str "1.0"),
   ("quick_advance", .bool false),
   ("ranked_by", .str "match wins"),
   ("require_score_agreement", .bool false),
   ("rr_pts_for_game_tie", .str "0.0"),
   ("rr_pts_for_game_win", .str "0.0"),
   ("rr_pts_for_match_tie", .str "0.5"),
   ("rr_pts_for_match_win", .str "1.0"),
   ("sequential_pairings", .bool false),
   ("show_rounds", .bool true),
   ("signup_cap", .null),
   ("start_at", .null),
   ("started_at", .str "2015-01-19T16:57:17-05:00"),
   ("started_checking_in_at", .null),
   ("state", .str "underway"),
   ("swiss_rounds", .u64 0),
   ("teams", .bool false),
   ("tie_breaks", .arr [.str "match wins vs tied", .str "game wins", .str "points scored"]),
   ("tournament_type", .str "single elimination"),
   ("updated_at", .str "2015-01-19T16:57:17-05:00"),
   ("url", .str "sample_tournament_1"),
   ("description_source", .str "sample description source"),
   ("subdomain", .null),
   ("full_challonge_url", .str "http://challonge.com/sample_tournament_1"),
   ("live_image_url", .str "http://images.challonge.com/sample_tournament_1.png"),
   ("sign_up_url", .null),
   ("review_before_finalizing", .bool true),
   ("accepting_predictions", .bool false),
   ("participants_locked", .bool true),
   ("game_name", .str "Table Tennis"),
   ("participants_swappable", .bool false),
   ("team_convertable", .bool false),
   ("group_stages_were_started", .bool false)]

/-- The extracted-keys-only restriction of the sample tournament object. -/
def sampleBare : JObj :=
  [("started_at", .str "2015-01-19T16:57:17-05:00"),
   ("accept_attachments", .bool false),
   ("allow_participant_match_reporting", .bool true),
   ("anonymous_voting", .bool false),
   ("created_at", .str "2015-01-19T16:47:30-05:00"),
   ("created_by_api", .bool false),
   ("credit_capped", .bool false),
   ("description", .str "sample description"),
   ("game_id", .u64 600),
   ("id", .u64 1086875),
   ("name", .str "Sample Tournament 1"),
   ("group_stages_enabled", .bool false),
   ("hide_forum", .bool false),
   ("hide_seeds", .bool false),
   ("hold_third_place_match", .bool false),
   ("max_predictions_per_user", .u64 1),
   ("notify_users_when_matches_open", .bool true),
   ("notify_users_when_the_tournament_ends", .bool true),
   ("open_signup", .bool false),
   ("participants_count", .u64 4),
   ("prediction_method", .u64 0),
   ("private", .bool false),
   ("progress_meter", .u64 0),
   ("pts_for_bye", .str "1.0"),
   ("pts_for_game_tie", .str "0.0"),
   ("pts_for_game_win", .str "0.0"),
   ("pts_for_match_tie", .str "0.5"),
   ("pts_for_match_win", .str "1.0"),
   ("quick_advance", .bool false),
   ("require_score_agreement", .bool false),
   ("rr_pts_for_game_tie", .str "0.0"),
   ("rr_pts_for_game_win", .str "0.0"),
   ("rr_pts_for_match_tie", .str "0.5"),
   ("rr_pts_for_match_win", .str "1.0"),
   ("sequential_pairings", .bool false),
   ("show_rounds", .bool true),
   ("swiss_rounds", .u64 0),
   ("teams", .bool false),
   ("tournament_type", .str "single elimination"),
   ("updated_at", .str "2015-01-19T16:57:17-05:00"),
   ("url", .str "sample_tournament_1"),
   ("description_source", .str "sample description source"),
   ("full_challonge_url", .str "http://challonge.com/sample_tournament_1"),
   ("live_image_url", .str "http://images.challonge.com/sample_tournament_1.png"),
   ("review_before_finalizing", .bool true),
   ("accepting_predictions", .bool false),
   ("participants_locked", .bool true),
   ("game_name", .str "Table Tennis"),
   ("participants_swappable", .bool false),
   ("team_convertable", .bool false),
   ("group_stages_were_started", .bool false)]

/-- The keys extracted before the `updated_at` step, in extraction order. -/
def keysBeforeUpdated : List String := extractedKeys.take 39

/-- Coercion class of the non-timestamp, non-enum extracted fields:
booleans, unsigned integers, string-encoded floats, free-text strings. -/
inductive MClass where
  | boolC
  | natC
  | fltC
  | strC
deriving DecidableEq, Fintype

/-- Universe of field values of a `Tournament` record, for stating
per-field facts uniformly. -/
inductive FieldVal where
  | b (x : Bool)
  | n (x : Nat)
  | q (x : F64)
  | s (x : String)
  | dt (x : DateTimeFO)
  | odt (x : Option DateTimeFO)
  | tt (x : TournamentType)
deriving DecidableEq

/-- Names of the fields of the `Tournament` record. -/
inductive AllField where
  | accept_attachments
  | allow_participant_match_reporting
  | anonymous_voting
  | created_at
  | created_by_api
  | credit_capped
  | description
  | game_id
  | group_stages_enabled
  | hide_forum
  | hide_seeds
  | hold_third_place_match
  | id
  | max_predictions_per_user
  | name
  | notify_users_when_matches_open
  | notify_users_when_the_tournament_ends
  | open_signup
  | participants_count
  | prediction_method
  | «private»
  | progress_meter
  | pts_for_bye
  | pts_for_game_tie
  | pts_for_game_win
  | pts_for_match_tie
  | pts_for_match_win
  | quick_advance
  | require_score_agreement
  | rr_pts_for_game_tie
  | rr_pts_for_game_win
  | rr_pts_for_match_tie
  | rr_pts_for_match_win
  | sequential_pairings
  | show_rounds
  | started_at
  | swiss_rounds
  | teams
  | tournament_type
  | updated_at
  | url
  | description_source
  | full_challonge_url
  | live_image_url
  | review_before_finalizing
  | accepting_predictions
  | participants_locked
  | game_name
  | participants_swappable
  | team_convertable
  | group_stages_were_started
deriving DecidableEq, Fintype

/-- The payload key each field is decoded from. -/
def keyAll : AllField → String
  | .accept_attachments => "accept_attachments"
  | .allow_participant_match_reporting => "allow_participant_match_reporting"
  | .anonymous_voting => "anonymous_voting"
  | .created_at => "created_at"
  | .created_by_api => "created_by_api"
  | .credit_capped => "credit_capped"
  | .description => "description"
  | .game_id => "game_id"
  | .group_stages_enabled => "group_stages_enabled"
  | .hide_forum => "hide_forum"
  | .hide_seeds => "hide_seeds"
  | .hold_third_place_match => "hold_third_place_match"
  | .id => "id"
  | .max_predictions_per_user => "max_predictions_per_user"
  | .name => "name"
  | .notify_users_when_matches_open => "notify_users_when_matches_open"
  | .notify_users_when_the_tournament_ends => "notify_users_when_the_tournament_ends"
  | .open_signup => "open_signup"
  | .participants_count => "participants_count"
  | .prediction_method => "prediction_method"
  | .«private» => "private"
  | .progress_meter => "progress_meter"
  | .pts_for_bye => "pts_for_bye"
  | .pts_for_game_tie => "pts_for_game_tie"
  | .pts_for_game_win => "pts_for_game_win"
  | .pts_for_match_tie => "pts_for_match_tie"
  | .pts_for_match_win => "pts_for_match_win"
  | .quick_advance => "quick_advance"
  | .require_score_agreement => "require_score_agreement"
  | .rr_pts_for_game_tie => "rr_pts_for_game_tie"
  | .rr_pts_for_game_win => "rr_pts_for_game_win"
  | .rr_pts_for_match_tie => "rr_pts_for_match_tie"
  | .rr_pts_for_match_win => "rr_pts_for_match_win"
  | .sequential_pairings => "sequential_pairings"
  | .show_rounds => "show_rounds"
  | .started_at => "started_at"
  | .swiss_rounds => "swiss_rounds"
  | .teams => "teams"
  | .tournament_type => "tournament_type"
  | .updated_at => "updated_at"
  | .url => "url"
  | .description_source => "description_source"
  | .full_challonge_url => "full_challonge_url"
  | .live_image_url => "live_image_url"
  | .review_before_finalizing => "review_before_finalizing"
  | .accepting_predictions => "accepting_predictions"
  | .participants_locked => "participants_locked"
  | .game_name => "game_name"
  | .participants_swappable => "participants_swappable"
  | .team_convertable => "team_convertable"
  | .group_stages_were_started => "group_stages_were_started"

/-- The coercion class of a field; the two mandatory timestamps, the
optional timestamp, and the enum field have none. -/
def mclassOf : AllField → Option MClass
  | .accept_attachments => some .boolC
  | .allow_participant_match_reporting => some .boolC
  | .anonymous_voting => some .boolC
  | .created_at => none
  | .created_by_api => some .boolC
  | .credit_capped => some .boolC
  | .description => some .strC
  | .game_id => some .natC
  | .group_stages_enabled => some .boolC
  | .hide_forum => some .boolC
  | .hide_seeds => some .boolC
  | .hold_third_place_match => some .boolC
  | .id => some .natC
  | .max_predictions_per_user => some .natC
  | .name => some .strC
  | .notify_users_when_matches_open => some .boolC
  | .notify_users_when_the_tournament_ends => some .boolC
  | .open_signup => some .boolC
  | .participants_count => some .natC
  | .prediction_method => some .natC
  | .«private» => some .boolC
  | .progress_meter => some .natC
  | .pts_for_bye => some .fltC
  | .pts_for_game_tie => some .fltC
  | .pts_for_game_win => some .fltC
  | .pts_for_match_tie => some .fltC
  | .pts_for_match_win => some .fltC
  | .quick_advance => some .boolC
  | .require_score_agreement => some .boolC
  | .rr_pts_for_game_tie => some .fltC
  | .rr_pts_for_game_win => some .fltC
  | .rr_pts_for_match_tie => some .fltC
  | .rr_pts_for_match_win => some .fltC
  | .sequential_pairings => some .boolC
  | .show_rounds => some .boolC
  | .started_at => none
  | .swiss_rounds => some .natC
  | .teams => some .boolC
  | .tournament_type => none
  | .updated_at => none
  | .url => some .strC
  | .description_source => some .strC
  | .full_challonge_url => some .strC
  | .live_image_url => some .strC
  | .review_before_finalizing => some .boolC
  | .accepting_predictions => some .boolC
  | .participants_locked => some .boolC
  | .game_name => some .strC
  | .participants_swappable => some .boolC
  | .team_convertable => some .boolC
  | .group_stages_were_started => some .boolC

/-- The coercion decode applies to a field's payload value. -/
def coerceField : AllField → Json → FieldVal
  | .accept_attachments, v => .b (boolD v)
  | .allow_participant_match_reporting, v => .b (boolD v)
  | .anonymous_voting, v => .b (boolD v)
  | .created_at, v => .dt ((createdOf v).getD dummyDT)
  | .created_by_api, v => .b (boolD v)
  | .credit_capped, v => .b (boolD v)
  | .description, v => .s (strD v)
  | .game_id, v => .n (u64D v)
  | .group_stages_enabled, v => .b (boolD v)
  | .hide_forum, v => .b (boolD v)
  | .hide_seeds, v => .b (boolD v)
  | .hold_third_place_match, v => .b (boolD v)
  | .id, v => .n (u64D v)
  | .max_predictions_per_user, v => .n (u64D v)
  | .name, v => .s (strD v)
  | .notify_users_when_matches_open, v => .b (boolD v)
  | .notify_users_when_the_tournament_ends, v => .b (boolD v)
  | .open_signup, v => .b (boolD v)
  | .participants_count, v => .n (u64D v)
  | .prediction_method, v => .n (u64D v)
  | .«private», v => .b (boolD v)
  | .progress_meter, v => .n (u64D v)
  | .pts_for_bye, v => .q (fltD v)
  | .pts_for_game_tie, v => .q (fltD v)
  | .pts_for_game_win, v => .q (fltD v)
  | .pts_for_match_tie, v => .q (fltD v)
  | .pts_for_match_win, v => .q (fltD v)
  | .quick_advance, v => .b (boolD v)
  | .require_score_agreement, v => .b (boolD v)
  | .rr_pts_for_game_tie, v => .q (fltD v)
  | .rr_pts_for_game_win, v => .q (fltD v)
  | .rr_pts_for_match_tie, v => .q (fltD v)
  | .rr_pts_for_match_win, v => .q (fltD v)
  | .sequential_pairings, v => .b (boolD v)
  | .show_rounds, v => .b (boolD v)
  | .started_at, v => .odt (startedOf v)
  | .swiss_rounds, v => .n (u64D v)
  | .teams, v => .b (boolD v)
  | .tournament_type, v => .tt (ttOf v)
  | .updated_at, v => .dt (((asString v).bind parseRFC3339).getD dummyDT)
  | .url, v => .s (strD v)
  | .description_source, v => .s (strD v)
  | .full_challonge_url, v => .s (strD v)
  | .live_image_url, v => .s (strD v)
  | .review_before_finalizing, v => .b (boolD v)
  | .accepting_predictions, v => .b (boolD v)
  | .participants_locked, v => .b (boolD v)
  | .game_name, v => .s (strD v)
  | .participants_swappable, v => .b (boolD v)
  | .team_convertable, v => .b (boolD v)
  | .group_stages_were_started, v => .b (boolD v)

/-- Projection of a record at a named field. -/
def projAll (t : Tournament) : AllField → FieldVal
  | .accept_attachments => .b t.accept_attachments
  | .allow_participant_match_reporting => .b t.allow_participant_match_reporting
  | .anonymous_voting => .b t.anonymous_voting
  | .created_at => .dt t.created_at
  | .created_by_api => .b t.created_by_api
  | .credit_capped => .b t.credit_capped
  | .description => .s t.description
  | .game_id => .n t.game_id
  | .group_stages_enabled => .b t.group_stages_enabled
  | .hide_forum => .b t.hide_forum
  | .hide_seeds => .b t.hide_seeds
  | .hold_third_place_match => .b t.hold_third_place_match
  | .id => .n t.id
  | .max_predictions_per_user => .n t.max_predictions_per_user
  | .name => .s t.name
  | .notify_users_when_matches_open => .b t.notify_users_when_matches_open
  | .notify_users_when_the_tournament_ends => .b t.notify_users_when_the_tournament_ends
  | .open_signup => .b t.open_signup
  | .participants_count => .n t.participants_count
  | .prediction_method => .n t.prediction_method
  | .«private» => .b t.«private»
  | .progress_meter => .n t.progress_meter
  | .pts_for_bye => .q t.pts_for_bye
  | .pts_for_game_tie => .q t.pts_for_game_tie
  | .pts_for_game_win => .q t.pts_for_game_win
  | .pts_for_match_tie => .q t.pts_for_match_tie
  | .pts_for_match_win => .q t.pts_for_match_win
  | .quick_advance => .b t.quick_advance
  | .require_score_agreement => .b t.require_score_agreement
  | .rr_pts_for_game_tie => .q t.rr_pts_for_game_tie
  | .rr_pts_for_game_win => .q t.rr_pts_for_game_win
  | .rr_pts_for_match_tie => .q t.rr_pts_for_match_tie
  | .rr_pts_for_match_win => .q t.rr_pts_for_match_win
  | .sequential_pairings => .b t.sequential_pairings
  | .show_rounds => .b t.show_rounds
  | .started_at => .odt t.started_at
  | .swiss_rounds => .n t.swiss_rounds
  | .teams => .b t.teams
  | .tournament_type => .tt t.tournament_type
  | .updated_at => .dt t.updated_at
  | .url => .s t.url
  | .description_source => .s t.description_source
  | .full_challonge_url => .s t.full_challonge_url
  | .live_image_url => .s t.live_image_url
  | .review_before_finalizing => .b t.review_before_finalizing
  | .accepting_predictions => .b t.accepting_predictions
  | .participants_locked => .b t.participants_locked
  | .game_name => .s t.game_name
  | .participants_swappable => .b t.participants_swappable
  | .team_convertable => .b t.team_convertable
  | .group_stages_were_started => .b t.group_stages_were_started

/-- The documented default of each coercion class: `false`, `0`, `0.0`,
and the empty string. -/
def defaultVal : MClass → FieldVal
  | .boolC => .b false
  | .natC => .n 0
  | .fltC => .q (.finite 0)
  | .strC => .s ""

/-- A value of the wrong type for a coercion class: the class's reader
rejects it (for the float class the reader is `as_string`, so any
non-string, including a native number, is wrong-typed). -/
def wrongTyped : MClass → Json → Bool
  | .boolC, v => (asBoolean v).isNone
  | .natC, v => (asU64 v).isNone
  | .fltC, v => (asString v).isNone
  | .strC, v => (asString v).isNone
theorem jlookup_jremove (m : JObj) (k k' : String) :
    jlookup (jremove m k) k' = if k' = k then none else jlookup m k' := by
  induction m with
  | nil => by_cases h : k' = k <;> simp [jremove, jlookup, h]
  | cons p rest ih =>
      obtain ⟨pk, pv⟩ := p
      by_cases h1 : pk = k <;> by_cases h2 : pk = k' <;>
        by_cases h3 : k' = k <;> simp_all [jremove, jlookup]

theorem jlookup_jremove_ne {k k' : String} (m : JObj) (h : k' ≠ k) :
    jlookup (jremove m k) k' = jlookup m k' := by
  simp [jlookup_jremove, h]

theorem jlookup_jset (m : JObj) (key k : String) (v : Json) :
    jlookup (jset m key v) k = if key = k then some v else jlookup m k := by
  by_cases h : key = k
  · simp [jset, jlookup, h]
  · have h' : k ≠ key := fun hk => h hk.symm
    simp [jset, jlookup, h, jlookup_jremove, h']

theorem runDec_bind_take {α : Type} (k : String) (f : Json → DecM α) (m : JObj) :
    runDec (takeKey k >>= f) m =
      match jlookup m k with
      | some v => runDec (f v) (jremove m k)
      | none => .err (.Decode "Unexpected absent key" (.str k)) := by
  cases h : jlookup m k <;>
    simp [runDec, takeKey, Bind.bind, DecM.bind, h]

theorem runDec_bind_unwrap {α β : Type} (o : Option α) (f : α → DecM β) (m : JObj) :
    runDec (unwrapD o >>= f) m =
      match o with
      | some a => runDec (f a) m
      | none => .panic := by
  cases o <;> simp [runDec, unwrapD, Bind.bind, DecM.bind]

theorem runDec_pure {α : Type} (a : α) (m : JObj) :
    runDec (pure a : DecM α) m = .ok a := rfl

/-- On a well-formed tournament map, the field-extraction body succeeds and
returns exactly the per-field coercions of the map's values. -/
theorem decodeFields_char (tv : JObj) (h : WellFormedB tv = true) :
    runDec (decodeFieldsGen takeKey) tv = .ok (mkTournament tv) := by
  simp only [WellFormedB, Bool.and_eq_true] at h
  obtain ⟨⟨hall, hcre⟩, hupd⟩ := h
  simp only [allPresent, extractedKeys, List.all_cons, List.all_nil,
    Bool.and_eq_true] at hall
  obtain ⟨h1, h2, h3, h4, h5, h6, h7, h8, h9, h10, h11, h12, h13, h14, h15, h16, h17, h18, h19, h20, h21, h22, h23, h24, h25, h26, h27, h28, h29, h30, h31, h32, h33, h34, h35, h36, h37, h38, h39, h40, h41, h42, h43, h44, h45, h46, h47, h48, h49, h50, h51, -⟩ := hall
  obtain ⟨w1, e1⟩ := Option.isSome_iff_exists.mp h1
  obtain ⟨w2, e2⟩ := Option.isSome_iff_exists.mp h2
  obtain ⟨w3, e3⟩ := Option.isSome_iff_exists.mp h3
  obtain ⟨w4, e4⟩ := Option.isSome_iff_exists.mp h4
  obtain ⟨w5, e5⟩ := Option.isSome_iff_exists.mp h5
  obtain ⟨w6, e6⟩ := Option.isSome_iff_exists.mp h6
  obtain ⟨w7, e7⟩ := Option.isSome_iff_exists.mp h7
  obtain ⟨w8, e8⟩ := Option.isSome_iff_exists.mp h8
  obtain ⟨w9, e9⟩ := Option.isSome_iff_exists.mp h9
  obtain ⟨w10, e10⟩ := Option.isSome_iff_exists.mp h10
  obtain ⟨w11, e11⟩ := Option.isSome_iff_exists.mp h11
  obtain ⟨w12, e12⟩ := Option.isSome_iff_exists.mp h12
  obtain ⟨w13, e13⟩ := Option.isSome_iff_exists.mp h13
  obtain ⟨w14, e14⟩ := Option.isSome_iff_exists.mp h14
  obtain ⟨w15, e15⟩ := Option.isSome_iff_exists.mp h15
  obtain ⟨w16, e16⟩ := Option.isSome_iff_exists.mp h16
  obtain ⟨w17, e17⟩ := Option.isSome_iff_exists.mp h17
  obtain ⟨w18, e18⟩ := Option.isSome_iff_exists.mp h18
  obtain ⟨w19, e19⟩ := Option.isSome_iff_exists.mp h19
  obtain ⟨w20, e20⟩ := Option.isSome_iff_exists.mp h20
  obtain ⟨w21, e21⟩ := Option.isSome_iff_exists.mp h21
  obtain ⟨w22, e22⟩ := Option.isSome_iff_exists.mp h22
  obtain ⟨w23, e23⟩ := Option.isSome_iff_exists.mp h23
  obtain ⟨w24, e24⟩ := Option.isSome_iff_exists.mp h24
  obtain ⟨w25, e25⟩ := Option.isSome_iff_exists.mp h25
  obtain ⟨w26, e26⟩ := Option.isSome_iff_exists.mp h26
  obtain ⟨w27, e27⟩ := Option.isSome_iff_exists.mp h27
  obtain ⟨w28, e28⟩ := Option.isSome_iff_exists.mp h28
  obtain ⟨w29, e29⟩ := Option.isSome_iff_exists.mp h29
  obtain ⟨w30, e30⟩ := Option.isSome_iff_exists.mp h30
  obtain ⟨w31, e31⟩ := Option.isSome_iff_exists.mp h31
  obtain ⟨w32, e32⟩ := Option.isSome_iff_exists.mp h32
  obtain ⟨w33, e33⟩ := Option.isSome_iff_exists.mp h33
  obtain ⟨w34, e34⟩ := Option.isSome_iff_exists.mp h34
  obtain ⟨w35, e35⟩ := Option.isSome_iff_exists.mp h35
  obtain ⟨w36, e36⟩ := Option.isSome_iff_exists.mp h36
  obtain ⟨w37, e37⟩ := Option.isSome_iff_exists.mp h37
  obtain ⟨w38, e38⟩ := Option.isSome_iff_exists.mp h38
  obtain ⟨w39, e39⟩ := Option.isSome_iff_exists.mp h39
  obtain ⟨w40, e40⟩ := Option.isSome_iff_exists.mp h40
  obtain ⟨w41, e41⟩ := Option.isSome_iff_exists.mp h41
  obtain ⟨w42, e42⟩ := Option.isSome_iff_exists.mp h42
  obtain ⟨w43, e43⟩ := Option.isSome_iff_exists.mp h43
  obtain ⟨w44, e44⟩ := Option.isSome_iff_exists.mp h44
  obtain ⟨w45, e45⟩ := Option.isSome_iff_exists.mp h45
  obtain ⟨w46, e46⟩ := Option.isSome_iff_exists.mp h46
  obtain ⟨w47, e47⟩ := Option.isSome_iff_exists.mp h47
  obtain ⟨w48, e48⟩ := Option.isSome_iff_exists.mp h48
  obtain ⟨w49, e49⟩ := Option.isSome_iff_exists.mp h49
  obtain ⟨w50, e50⟩ := Option.isSome_iff_exists.mp h50
  obtain ⟨w51, e51⟩ := Option.isSome_iff_exists.mp h51
  simp only [createdOkB, lookD, e5, Option.getD_some] at hcre
  obtain ⟨dtc, ec⟩ := Option.isSome_iff_exists.mp hcre
  simp only [updatedOkB, lookD, e40, Option.getD_some] at hupd
  cases hsu : asString w40 with
  | none => rw [hsu] at hupd; exact absurd hupd (by simp)
  | some su =>
      rw [hsu] at hupd
      obtain ⟨dtu, eu⟩ := Option.isSome_iff_exists.mp hupd
      simp only [decodeFieldsGen, runDec_bind_take, runDec_bind_unwrap,
        runDec_pure, jlookup_jremove, e1, e2, e3, e4, e5, e6, e7, e8, e9, e10, e11, e12, e13, e14, e15, e16, e17, e18, e19, e20, e21, e22, e23, e24, e25, e26, e27, e28, e29, e30, e31, e32, e33, e34, e35, e36, e37, e38, e39, e40, e41, e42, e43, e44, e45, e46, e47, e48, e49, e50, e51,
        ec, hsu, eu, mkTournament, lookD, Option.getD_some]
      simp [ec, hsu, eu]

/-- Unwrapping the envelope: when the outer value is an object whose
`tournament` key holds an object, decode reduces to the field extraction
over the inner map. -/
theorem decode_obj (m tv : JObj)
    (h : jlookup m "tournament" = some (.obj tv)) :
    Tournament.decode (.obj m) = runDec (decodeFieldsGen takeKey) tv := by
  simp [Tournament.decode, intoMap, h]

/-- Full success characterization of `Tournament::decode` on a well-formed
payload. -/
theorem decode_char (m tv : JObj)
    (h : jlookup m "tournament" = some (.obj tv))
    (hwf : WellFormedB tv = true) :
    Tournament.decode (.obj m) = .ok (mkTournament tv) := by
  rw [decode_obj m tv h, decodeFields_char tv hwf]

/-- The field extraction reads only the extracted keys: two tournament maps
agreeing on every extracted key decode identically. -/
theorem decodeFields_congr (tv₁ tv₂ : JObj)
    (h : ∀ k ∈ extractedKeys, jlookup tv₁ k = jlookup tv₂ k) :
    runDec (decodeFieldsGen takeKey) tv₁ = runDec (decodeFieldsGen takeKey) tv₂ := by
  have g1 := h "started_at" (by decide)
  have g2 := h "accept_attachments" (by decide)
  have g3 := h "allow_participant_match_reporting" (by decide)
  have g4 := h "anonymous_voting" (by decide)
  have g5 := h "created_at" (by decide)
  have g6 := h "created_by_api" (by decide)
  have g7 := h "credit_capped" (by decide)
  have g8 := h "description" (by decide)
  have g9 := h "game_id" (by decide)
  have g10 := h "id" (by decide)
  have g11 := h "name" (by decide)
  have g12 := h "group_stages_enabled" (by decide)
  have g13 := h "hide_forum" (by decide)
  have g14 := h "hide_seeds" (by decide)
  have g15 := h "hold_third_place_match" (by decide)
  have g16 := h "max_predictions_per_user" (by decide)
  have g17 := h "notify_users_when_matches_open" (by decide)
  have g18 := h "notify_users_when_the_tournament_ends" (by decide)
  have g19 := h "open_signup" (by decide)
  have g20 := h "participants_count" (by decide)
  have g21 := h "prediction_method" (by decide)
  have g22 := h "private" (by decide)
  have g23 := h "progress_meter" (by decide)
  have g24 := h "pts_for_bye" (by decide)
  have g25 := h "pts_for_game_tie" (by decide)
  have g26 := h "pts_for_game_win" (by decide)
  have g27 := h "pts_for_match_tie" (by decide)
  have g28 := h "pts_for_match_win" (by decide)
  have g29 := h "quick_advance" (by decide)
  have g30 := h "require_score_agreement" (by decide)
  have g31 := h "rr_pts_for_game_tie" (by decide)
  have g32 := h "rr_pts_for_game_win" (by decide)
  have g33 := h "rr_pts_for_match_tie" (by decide)
  have g34 := h "rr_pts_for_match_win" (by decide)
  have g35 := h "sequential_pairings" (by decide)
  have g36 := h "show_rounds" (by decide)
  have g37 := h "swiss_rounds" (by decide)
  have g38 := h "teams" (by decide)
  have g39 := h "tournament_type" (by decide)
  have g40 := h "updated_at" (by decide)
  have g41 := h "url" (by decide)
  have g42 := h "description_source" (by decide)
  have g43 := h "full_challonge_url" (by decide)
  have g44 := h "live_image_url" (by decide)
  have g45 := h "review_before_finalizing" (by decide)
  have g46 := h "accepting_predictions" (by decide)
  have g47 := h "participants_locked" (by decide)
  have g48 := h "game_name" (by decide)
  have g49 := h "participants_swappable" (by decide)
  have g50 := h "team_convertable" (by decide)
  have g51 := h "group_stages_were_started" (by decide)
  simp only [decodeFieldsGen, runDec_bind_take, runDec_bind_unwrap,
    runDec_pure, jlookup_jremove, g1, g2, g3, g4, g5, g6, g7, g8, g9, g10, g11, g12, g13, g14, g15, g16, g17, g18, g19, g20, g21, g22, g23, g24, g25, g26, g27, g28, g29, g30, g31, g32, g33, g34, g35, g36, g37, g38, g39, g40, g41, g42, g43, g44, g45, g46, g47, g48, g49, g50, g51]

/-- C6: a non-object value fails decode with the `Expected object` error
carrying that value; an object without the `tournament` key fails with the
`Unexpected absent key` error carrying the key as a value; a `tournament`
value that is not an object fails with `Expected object` carrying it. -/
theorem claim_C6 :
    (∀ v : Json, (∀ m : JObj, v ≠ .obj m) →
      Tournament.decode v = .err (.Decode "Expected object" v)) ∧
    (∀ m : JObj, jlookup m "tournament" = none →
      Tournament.decode (.obj m) =
        .err (.Decode "Unexpected absent key" (.str "tournament"))) ∧
    (∀ m : JObj, ∀ t : Json, jlookup m "tournament" = some t →
      (∀ tv : JObj, t ≠ .obj tv) →
      Tournament.decode (.obj m) = .err (.Decode "Expected object" t)) := by
  refine ⟨fun v hv => ?_, fun m h => ?_, fun m t ht hv => ?_⟩
  · cases v <;> first
      | exact absurd rfl (hv _)
      | rfl
  · simp [Tournament.decode, intoMap, h]
  · cases t <;> first
      | exact absurd rfl (hv _)
      | simp [Tournament.decode, intoMap, ht]

theorem claim_C6_witness :
    Tournament.decode (.str "not an object") =
      .err (.Decode "Expected object" (.str "not an object")) ∧
    Tournament.decode (.obj [("name", .u64 1)]) =
      .err (.Decode "Unexpected absent key" (.str "tournament")) ∧
    Tournament.decode (.obj [("tournament", .str "x")]) =
      .err (.Decode "Expected object" (.str "x")) :=
  ⟨claim_C6.1 (.str "not an object") (fun _ h => Json.noConfusion h),
   claim_C6.2.1 _ rfl,
   claim_C6.2.2 _ _ rfl (fun _ h => Json.noConfusion h)⟩

/-- C8: on any non-array value the collection decoder returns the empty
sequence (and `Index::decode` an empty index), not an error. -/
theorem claim_C8 (v : Json) (h : asArray v = none) :
    decode_tournaments v = .ok [] ∧ Index.decode v = .ok ⟨[]⟩ := by
  simp [decode_tournaments, Index.decode, DResult.map, h]

theorem claim_C8_witness :
    asArray (.str "nope") = none ∧
    (decode_tournaments (.str "nope") = .ok [] ∧
      Index.decode (.str "nope") = .ok ⟨[]⟩) :=
  ⟨rfl, claim_C8 _ rfl⟩

/-- C9: `TournamentId` displays as `subdomain ++ "-" ++ url` for the URL
variant and as the decimal representation of the number for the Id
variant. -/
theorem claim_C9 :
    (∀ subdomain url : String,
      TournamentId.displayStr (.Url subdomain url) = subdomain ++ "-" ++ url) ∧
    (∀ n : Nat, TournamentId.displayStr (.Id n) = Nat.repr n) :=
  ⟨fun _ _ => rfl, fun _ => rfl⟩

/-- C5: `from_str` maps both the machine spelling (`to_get_param`) and the
display spelling of each variant back to that variant; every other string is
rejected with the unit error; and in decode an unrecognised or non-string
`tournament_type` yields `SingleElimination` without failing. -/
theorem claim_C5 :
    (∀ t : TournamentType,
      TournamentType.fromStr t.toGetParam = .ok t ∧
      TournamentType.fromStr t.displayStr = .ok t) ∧
    (∀ s : String,
      s ∉ (["single_elimination", "single elimination", "double_elimination",
            "double elimination", "round_robin", "round robin",
            "swiss"] : List String) →
      TournamentType.fromStr s = .error ()) ∧
    (∀ tv : JObj, WellFormedB tv = true → ∀ v : Json,
      jlookup tv "tournament_type" = some v →
      TournamentType.fromStr ((asString v).getD "") = .error () →
      ∃ t : Tournament,
        Tournament.decode (.obj [("tournament", .obj tv)]) = .ok t ∧
        t.tournament_type = .SingleElimination) := by
  refine ⟨fun t => ?_, fun s hs => ?_, fun tv hwf v hv hparse => ?_⟩
  · cases t <;> exact ⟨rfl, rfl⟩
  · simp only [List.mem_cons, List.not_mem_nil, or_false, not_or] at hs
    obtain ⟨h1, h2, h3, h4, h5, h6, h7⟩ := hs
    simp [TournamentType.fromStr, h1, h2, h3, h4, h5, h6, h7]
  · refine ⟨mkTournament tv, decode_char _ _ rfl hwf, ?_⟩
    show ttOf (lookD tv "tournament_type") = .SingleElimination
    simp [ttOf, lookD, hv, hparse]

theorem claim_C5_witness :
    TournamentType.fromStr "bogus" = .error () ∧
    (∃ t : Tournament,
      Tournament.decode (.obj [("tournament",
        .obj (jset sampleTV "tournament_type" (.u64 3)))]) = .ok t ∧
      t.tournament_type = .SingleElimination) :=
  ⟨claim_C5.2.1 "bogus" (by decide),
   claim_C5.2.2 (jset sampleTV "tournament_type" (.u64 3)) (by decide)
     (.u64 3) rfl rfl⟩

/-- C10: decode reads only the `tournament` key of the envelope and the
fixed extracted key set of the tournament object; two payloads agreeing
there decode to the same result, whatever the other keys hold. -/
theorem claim_C10 (m1 m2 tv1 tv2 : JObj)
    (h1 : jlookup m1 "tournament" = some (.obj tv1))
    (h2 : jlookup m2 "tournament" = some (.obj tv2))
    (hagree : ∀ k ∈ extractedKeys, jlookup tv1 k = jlookup tv2 k) :
    Tournament.decode (.obj m1) = Tournament.decode (.obj m2) := by
  rw [decode_obj _ _ h1, decode_obj _ _ h2]
  exact decodeFields_congr _ _ hagree

theorem claim_C10_witness :
    Tournament.decode (.obj [("tournament", .obj sampleTV)]) =
    Tournament.decode (.obj [("junk", .null), ("tournament", .obj sampleBare)]) :=
  claim_C10 _ _ _ _ rfl rfl (by intro k hk; fin_cases hk <;> rfl)

/-- An absent `created_at` key always yields a returned decode error (the
reads before it cannot panic). -/
theorem decode_created_absent (m tv : JObj)
    (henv : jlookup m "tournament" = some (.obj tv))
    (h : jlookup tv "created_at" = none) :
    (Tournament.decode (.obj m)).isErr = true := by
  rw [decode_obj _ _ henv]
  simp only [decodeFieldsGen, runDec_bind_take, runDec_bind_unwrap,
    runDec_pure, jlookup_jremove]
  cases h1 : jlookup tv "started_at" with
  | none => simp [h1, DResult.isErr]
  | some v1 =>
    cases h2 : jlookup tv "accept_attachments" with
    | none => simp [h1, h2, DResult.isErr]
    | some v2 =>
      cases h3 : jlookup tv "allow_participant_match_reporting" with
      | none => simp [h1, h2, h3, DResult.isErr]
      | some v3 =>
        cases h4 : jlookup tv "anonymous_voting" with
        | none => simp [h1, h2, h3, h4, DResult.isErr]
        | some v4 => simp [h1, h2, h3, h4, h, DResult.isErr]

/-- A present `created_at` whose value fails the parse path panics, once the
four reads before it succeed. -/
theorem decode_created_panic (m tv : JObj) (vc : Json)
    (henv : jlookup m "tournament" = some (.obj tv))
    (h1 : (jlookup tv "started_at").isSome = true)
    (h2 : (jlookup tv "accept_attachments").isSome = true)
    (h3 : (jlookup tv "allow_participant_match_reporting").isSome = true)
    (h4 : (jlookup tv "anonymous_voting").isSome = true)
    (hc : jlookup tv "created_at" = some vc)
    (hn : createdOf vc = none) :
    Tournament.decode (.obj m) = .panic := by
  obtain ⟨w1, e1⟩ := Option.isSome_iff_exists.mp h1
  obtain ⟨w2, e2⟩ := Option.isSome_iff_exists.mp h2
  obtain ⟨w3, e3⟩ := Option.isSome_iff_exists.mp h3
  obtain ⟨w4, e4⟩ := Option.isSome_iff_exists.mp h4
  rw [decode_obj _ _ henv]
  simp only [decodeFieldsGen, runDec_bind_take, runDec_bind_unwrap,
    runDec_pure, jlookup_jremove, e1, e2, e3, e4, hc, hn]
  simp [hn]

/-- An absent `updated_at` key yields a returned decode error once every
read before it succeeds and `created_at` parses. -/
theorem decode_updated_absent (m tv : JObj)
    (henv : jlookup m "tournament" = some (.obj tv))
    (hall : ∀ k ∈ keysBeforeUpdated, (jlookup tv k).isSome = true)
    (hcre : createdOkB tv = true)
    (hu : jlookup tv "updated_at" = none) :
    (Tournament.decode (.obj m)).isErr = true := by
  rw [decode_obj _ _ henv]
  have g1 := hall "started_at" (by decide)
  have g2 := hall "accept_attachments" (by decide)
  have g3 := hall "allow_participant_match_reporting" (by decide)
  have g4 := hall "anonymous_voting" (by decide)
  have g5 := hall "created_at" (by decide)
  have g6 := hall "created_by_api" (by decide)
  have g7 := hall "credit_capped" (by decide)
  have g8 := hall "description" (by decide)
  have g9 := hall "game_id" (by decide)
  have g10 := hall "id" (by decide)
  have g11 := hall "name" (by decide)
  have g12 := hall "group_stages_enabled" (by decide)
  have g13 := hall "hide_forum" (by decide)
  have g14 := hall "hide_seeds" (by decide)
  have g15 := hall "hold_third_place_match" (by decide)
  have g16 := hall "max_predictions_per_user" (by decide)
  have g17 := hall "notify_users_when_matches_open" (by decide)
  have g18 := hall "notify_users_when_the_tournament_ends" (by decide)
  have g19 := hall "open_signup" (by decide)
  have g20 := hall "participants_count" (by decide)
  have g21 := hall "prediction_method" (by decide)
  have g22 := hall "private" (by decide)
  have g23 := hall "progress_meter" (by decide)
  have g24 := hall "pts_for_bye" (by decide)
  have g25 := hall "pts_for_game_tie" (by decide)
  have g26 := hall "pts_for_game_win" (by decide)
  have g27 := hall "pts_for_match_tie" (by decide)
  have g28 := hall "pts_for_match_win" (by decide)
  have g29 := hall "quick_advance" (by decide)
  have g30 := hall "require_score_agreement" (by decide)
  have g31 := hall "rr_pts_for_game_tie" (by decide)
  have g32 := hall "rr_pts_for_game_win" (by decide)
  have g33 := hall "rr_pts_for_match_tie" (by decide)
  have g34 := hall "rr_pts_for_match_win" (by decide)
  have g35 := hall "sequential_pairings" (by decide)
  have g36 := hall "show_rounds" (by decide)
  have g37 := hall "swiss_rounds" (by decide)
  have g38 := hall "teams" (by decide)
  have g39 := hall "tournament_type" (by decide)
  obtain ⟨w1, e1⟩ := Option.isSome_iff_exists.mp g1
  obtain ⟨w2, e2⟩ := Option.isSome_iff_exists.mp g2
  obtain ⟨w3, e3⟩ := Option.isSome_iff_exists.mp g3
  obtain ⟨w4, e4⟩ := Option.isSome_iff_exists.mp g4
  obtain ⟨w5, e5⟩ := Option.isSome_iff_exists.mp g5
  obtain ⟨w6, e6⟩ := Option.isSome_iff_exists.mp g6
  obtain ⟨w7, e7⟩ := Option.isSome_iff_exists.mp g7
  obtain ⟨w8, e8⟩ := Option.isSome_iff_exists.mp g8
  obtain ⟨w9, e9⟩ := Option.isSome_iff_exists.mp g9
  obtain ⟨w10, e10⟩ := Option.isSome_iff_exists.mp g10
  obtain ⟨w11, e11⟩ := Option.isSome_iff_exists.mp g11
  obtain ⟨w12, e12⟩ := Option.isSome_iff_exists.mp g12
  obtain ⟨w13, e13⟩ := Option.isSome_iff_exists.mp g13
  obtain ⟨w14, e14⟩ := Option.isSome_iff_exists.mp g14
  obtain ⟨w15, e15⟩ := Option.isSome_iff_exists.mp g15
  obtain ⟨w16, e16⟩ := Option.isSome_iff_exists.mp g16
  obtain ⟨w17, e17⟩ := Option.isSome_iff_exists.mp g17
  obtain ⟨w18, e18⟩ := Option.isSome_iff_exists.mp g18
  obtain ⟨w19, e19⟩ := Option.isSome_iff_exists.mp g19
  obtain ⟨w20, e20⟩ := Option.isSome_iff_exists.mp g20
  obtain ⟨w21, e21⟩ := Option.isSome_iff_exists.mp g21
  obtain ⟨w22, e22⟩ := Option.isSome_iff_exists.mp g22
  obtain ⟨w23, e23⟩ := Option.isSome_iff_exists.mp g23
  obtain ⟨w24, e24⟩ := Option.isSome_iff_exists.mp g24
  obtain ⟨w25, e25⟩ := Option.isSome_iff_exists.mp g25
  obtain ⟨w26, e26⟩ := Option.isSome_iff_exists.mp g26
  obtain ⟨w27, e27⟩ := Option.isSome_iff_exists.mp g27
  obtain ⟨w28, e28⟩ := Option.isSome_iff_exists.mp g28
  obtain ⟨w29, e29⟩ := Option.isSome_iff_exists.mp g29
  obtain ⟨w30, e30⟩ := Option.isSome_iff_exists.mp g30
  obtain ⟨w31, e31⟩ := Option.isSome_iff_exists.mp g31
  obtain ⟨w32, e32⟩ := Option.isSome_iff_exists.mp g32
  obtain ⟨w33, e33⟩ := Option.isSome_iff_exists.mp g33
  obtain ⟨w34, e34⟩ := Option.isSome_iff_exists.mp g34
  obtain ⟨w35, e35⟩ := Option.isSome_iff_exists.mp g35
  obtain ⟨w36, e36⟩ := Option.isSome_iff_exists.mp g36
  obtain ⟨w37, e37⟩ := Option.isSome_iff_exists.mp g37
  obtain ⟨w38, e38⟩ := Option.isSome_iff_exists.mp g38
  obtain ⟨w39, e39⟩ := Option.isSome_iff_exists.mp g39
  simp only [createdOkB, lookD, e5, Option.getD_some] at hcre
  obtain ⟨dtc, ec⟩ := Option.isSome_iff_exists.mp hcre
  simp only [decodeFieldsGen, runDec_bind_take, runDec_bind_unwrap,
    runDec_pure, jlookup_jremove, e1, e2, e3, e4, e5, e6, e7, e8, e9, e10, e11, e12, e13, e14, e15, e16, e17, e18, e19, e20, e21, e22, e23, e24, e25, e26, e27, e28, e29, e30, e31, e32, e33, e34, e35, e36, e37, e38, e39, ec, hu]
  simp [DResult.isErr, hu, ec]

/-- A present `updated_at` that is not a string parsing as RFC 3339 panics,
once every read before it succeeds and `created_at` parses. -/
theorem decode_updated_panic (m tv : JObj) (vu : Json)
    (henv : jlookup m "tournament" = some (.obj tv))
    (hall : ∀ k ∈ keysBeforeUpdated, (jlookup tv k).isSome = true)
    (hcre : createdOkB tv = true)
    (hu : jlookup tv "updated_at" = some vu)
    (hn : (asString vu).bind parseRFC3339 = none) :
    Tournament.decode (.obj m) = .panic := by
  rw [decode_obj _ _ henv]
  have g1 := hall "started_at" (by decide)
  have g2 := hall "accept_attachments" (by decide)
  have g3 := hall "allow_participant_match_reporting" (by decide)
  have g4 := hall "anonymous_voting" (by decide)
  have g5 := hall "created_at" (by decide)
  have g6 := hall "created_by_api" (by decide)
  have g7 := hall "credit_capped" (by decide)
  have g8 := hall "description" (by decide)
  have g9 := hall "game_id" (by decide)
  have g10 := hall "id" (by decide)
  have g11 := hall "name" (by decide)
  have g12 := hall "group_stages_enabled" (by decide)
  have g13 := hall "hide_forum" (by decide)
  have g14 := hall "hide_seeds" (by decide)
  have g15 := hall "hold_third_place_match" (by decide)
  have g16 := hall "max_predictions_per_user" (by decide)
  have g17 := hall "notify_users_when_matches_open" (by decide)
  have g18 := hall "notify_users_when_the_tournament_ends" (by decide)
  have g19 := hall "open_signup" (by decide)
  have g20 := hall "participants_count" (by decide)
  have g21 := hall "prediction_method" (by decide)
  have g22 := hall "private" (by decide)
  have g23 := hall "progress_meter" (by decide)
  have g24 := hall "pts_for_bye" (by decide)
  have g25 := hall "pts_for_game_tie" (by decide)
  have g26 := hall "pts_for_game_win" (by decide)
  have g27 := hall "pts_for_match_tie" (by decide)
  have g28 := hall "pts_for_match_win" (by decide)
  have g29 := hall "quick_advance" (by decide)
  have g30 := hall "require_score_agreement" (by decide)
  have g31 := hall "rr_pts_for_game_tie" (by decide)
  have g32 := hall "rr_pts_for_game_win" (by decide)
  have g33 := hall "rr_pts_for_match_tie" (by decide)
  have g34 := hall "rr_pts_for_match_win" (by decide)
  have g35 := hall "sequential_pairings" (by decide)
  have g36 := hall "show_rounds" (by decide)
  have g37 := hall "swiss_rounds" (by decide)
  have g38 := hall "teams" (by decide)
  have g39 := hall "tournament_type" (by decide)
  obtain ⟨w1, e1⟩ := Option.isSome_iff_exists.mp g1
  obtain ⟨w2, e2⟩ := Option.isSome_iff_exists.mp g2
  obtain ⟨w3, e3⟩ := Option.isSome_iff_exists.mp g3
  obtain ⟨w4, e4⟩ := Option.isSome_iff_exists.mp g4
  obtain ⟨w5, e5⟩ := Option.isSome_iff_exists.mp g5
  obtain ⟨w6, e6⟩ := Option.isSome_iff_exists.mp g6
  obtain ⟨w7, e7⟩ := Option.isSome_iff_exists.mp g7
  obtain ⟨w8, e8⟩ := Option.isSome_iff_exists.mp g8
  obtain ⟨w9, e9⟩ := Option.isSome_iff_exists.mp g9
  obtain ⟨w10, e10⟩ := Option.isSome_iff_exists.mp g10
  obtain ⟨w11, e11⟩ := Option.isSome_iff_exists.mp g11
  obtain ⟨w12, e12⟩ := Option.isSome_iff_exists.mp g12
  obtain ⟨w13, e13⟩ := Option.isSome_iff_exists.mp g13
  obtain ⟨w14, e14⟩ := Option.isSome_iff_exists.mp g14
  obtain ⟨w15, e15⟩ := Option.isSome_iff_exists.mp g15
  obtain ⟨w16, e16⟩ := Option.isSome_iff_exists.mp g16
  obtain ⟨w17, e17⟩ := Option.isSome_iff_exists.mp g17
  obtain ⟨w18, e18⟩ := Option.isSome_iff_exists.mp g18
  obtain ⟨w19, e19⟩ := Option.isSome_iff_exists.mp g19
  obtain ⟨w20, e20⟩ := Option.isSome_iff_exists.mp g20
  obtain ⟨w21, e21⟩ := Option.isSome_iff_exists.mp g21
  obtain ⟨w22, e22⟩ := Option.isSome_iff_exists.mp g22
  obtain ⟨w23, e23⟩ := Option.isSome_iff_exists.mp g23
  obtain ⟨w24, e24⟩ := Option.isSome_iff_exists.mp g24
  obtain ⟨w25, e25⟩ := Option.isSome_iff_exists.mp g25
  obtain ⟨w26, e26⟩ := Option.isSome_iff_exists.mp g26
  obtain ⟨w27, e27⟩ := Option.isSome_iff_exists.mp g27
  obtain ⟨w28, e28⟩ := Option.isSome_iff_exists.mp g28
  obtain ⟨w29, e29⟩ := Option.isSome_iff_exists.mp g29
  obtain ⟨w30, e30⟩ := Option.isSome_iff_exists.mp g30
  obtain ⟨w31, e31⟩ := Option.isSome_iff_exists.mp g31
  obtain ⟨w32, e32⟩ := Option.isSome_iff_exists.mp g32
  obtain ⟨w33, e33⟩ := Option.isSome_iff_exists.mp g33
  obtain ⟨w34, e34⟩ := Option.isSome_iff_exists.mp g34
  obtain ⟨w35, e35⟩ := Option.isSome_iff_exists.mp g35
  obtain ⟨w36, e36⟩ := Option.isSome_iff_exists.mp g36
  obtain ⟨w37, e37⟩ := Option.isSome_iff_exists.mp g37
  obtain ⟨w38, e38⟩ := Option.isSome_iff_exists.mp g38
  obtain ⟨w39, e39⟩ := Option.isSome_iff_exists.mp g39
  simp only [createdOkB, lookD, e5, Option.getD_some] at hcre
  obtain ⟨dtc, ec⟩ := Option.isSome_iff_exists.mp hcre
  cases hsv : asString vu with
  | none =>
      simp only [decodeFieldsGen, runDec_bind_take, runDec_bind_unwrap,
        runDec_pure, jlookup_jremove, e1, e2, e3, e4, e5, e6, e7, e8, e9, e10, e11, e12, e13, e14, e15, e16, e17, e18, e19, e20, e21, e22, e23, e24, e25, e26, e27, e28, e29, e30, e31, e32, e33, e34, e35, e36, e37, e38, e39, ec, hu, hsv]
      simp [hsv, ec]
  | some su =>
      rw [hsv, Option.some_bind] at hn
      simp only [decodeFieldsGen, runDec_bind_take, runDec_bind_unwrap,
        runDec_pure, jlookup_jremove, e1, e2, e3, e4, e5, e6, e7, e8, e9, e10, e11, e12, e13, e14, e15, e16, e17, e18, e19, e20, e21, e22, e23, e24, e25, e26, e27, e28, e29, e30, e31, e32, e33, e34, e35, e36, e37, e38, e39, ec, hu, hsv, hn]
      simp [hsv, hn, ec]

/-- C1 (amended): an absent `created_at` always yields a returned Decode
error; an absent `updated_at` yields a returned Decode error once the reads
before it succeed and `created_at` parses; but a `created_at` or
`updated_at` that is present and not a string parseable as RFC 3339 makes
decode panic (abort) rather than return an error value. -/
theorem claim_C1 :
    (∀ m tv : JObj, jlookup m "tournament" = some (.obj tv) →
      jlookup tv "created_at" = none →
      (Tournament.decode (.obj m)).isErr = true) ∧
    (∀ m tv : JObj, ∀ vc : Json, jlookup m "tournament" = some (.obj tv) →
      (jlookup tv "started_at").isSome = true →
      (jlookup tv "accept_attachments").isSome = true →
      (jlookup tv "allow_participant_match_reporting").isSome = true →
      (jlookup tv "anonymous_voting").isSome = true →
      jlookup tv "created_at" = some vc → createdOf vc = none →
      Tournament.decode (.obj m) = .panic) ∧
    (∀ m tv : JObj, jlookup m "tournament" = some (.obj tv) →
      (∀ k ∈ keysBeforeUpdated, (jlookup tv k).isSome = true) →
      createdOkB tv = true → jlookup tv "updated_at" = none →
      (Tournament.decode (.obj m)).isErr = true) ∧
    (∀ m tv : JObj, ∀ vu : Json, jlookup m "tournament" = some (.obj tv) →
      (∀ k ∈ keysBeforeUpdated, (jlookup tv k).isSome = true) →
      createdOkB tv = true → jlookup tv "updated_at" = some vu →
      (asString vu).bind parseRFC3339 = none →
      Tournament.decode (.obj m) = .panic) :=
  ⟨fun m tv henv h => decode_created_absent m tv henv h,
   fun m tv vc henv h1 h2 h3 h4 hc hn =>
     decode_created_panic m tv vc henv h1 h2 h3 h4 hc hn,
   fun m tv henv hall hcre hu => decode_updated_absent m tv henv hall hcre hu,
   fun m tv vu henv hall hcre hu hn =>
     decode_updated_panic m tv vu henv hall hcre hu hn⟩

theorem claim_C1_witness :
    (Tournament.decode (.obj [("tournament",
      .obj (jremove sampleTV "created_at"))])).isErr = true ∧
    Tournament.decode (.obj [("tournament",
      .obj (jset sampleTV "created_at" (.u64 42)))]) = .panic ∧
    (Tournament.decode (.obj [("tournament",
      .obj (jremove sampleTV "updated_at"))])).isErr = true ∧
    Tournament.decode (.obj [("tournament",
      .obj (jset sampleTV "updated_at" (.bool true)))]) = .panic :=
  ⟨claim_C1.1 _ _ rfl rfl,
   claim_C1.2.1 _ _ _ rfl (by decide) (by decide) (by decide) (by decide)
     rfl rfl,
   claim_C1.2.2.1 _ _ rfl (by decide) (by decide) rfl,
   claim_C1.2.2.2 _ _ _ rfl (by decide) (by decide) rfl rfl⟩

theorem claim_C1_counterexample :
    Tournament.decode (.obj [("tournament",
      .obj (jset sampleTV "created_at" (.str "19 Jan 2015")))]) = .panic ∧
    (Tournament.decode (.obj [("tournament",
      .obj (jset sampleTV "created_at" (.str "19 Jan 2015")))])).isErr
      = false :=
  ⟨rfl, rfl⟩

/-- C2 (amended): when the `started_at` key is present but its value is not
a string parsing as RFC 3339, decode succeeds with an absent `started_at`;
but when the key is missing entirely, decode fails with the absent-key
Decode error instead of succeeding. -/
theorem claim_C2 :
    (∀ m tv : JObj, jlookup m "tournament" = some (.obj tv) →
      jlookup tv "started_at" = none →
      Tournament.decode (.obj m) =
        .err (.Decode "Unexpected absent key" (.str "started_at"))) ∧
    (∀ m tv : JObj, jlookup m "tournament" = some (.obj tv) →
      WellFormedB tv = true → ∀ v : Json,
      jlookup tv "started_at" = some v → startedOf v = none →
      ∃ t : Tournament, Tournament.decode (.obj m) = .ok t ∧
        t.started_at = none) := by
  constructor
  · intro m tv henv h
    rw [decode_obj _ _ henv]
    simp only [decodeFieldsGen, runDec_bind_take, h]
  · intro m tv henv hwf v hv hn
    refine ⟨mkTournament tv, decode_char _ _ henv hwf, ?_⟩
    show startedOf (lookD tv "started_at") = none
    simp [lookD, hv, hn]

theorem claim_C2_witness :
    Tournament.decode (.obj [("tournament", .obj [("id", .u64 1)])]) =
      .err (.Decode "Unexpected absent key" (.str "started_at")) ∧
    (∃ t : Tournament,
      Tournament.decode (.obj [("tournament",
        .obj (jset sampleTV "started_at" .null))]) = .ok t ∧
      t.started_at = none) :=
  ⟨claim_C2.1 _ _ rfl rfl,
   claim_C2.2 _ _ rfl (by decide) .null rfl rfl⟩

theorem claim_C2_counterexample :
    Tournament.decode (.obj [("tournament",
      .obj (jremove sampleTV "started_at"))]) =
      .err (.Decode "Unexpected absent key" (.str "started_at")) := rfl

/-- C7 (amended): over any array whose elements decode without panicking,
the collection decoder returns exactly the successfully decoded records in
input order, silently discarding the elements whose decode returns an
error; an element whose decode panics propagates the panic instead. -/
theorem claim_C7 (xs : List Json)
    (h : ∀ x ∈ xs, Tournament.decode x ≠ .panic) :
    decode_tournaments (.arr xs) =
      .ok (xs.filterMap (fun x => (Tournament.decode x).toOption)) ∧
    Index.decode (.arr xs) =
      .ok ⟨xs.filterMap (fun x => (Tournament.decode x).toOption)⟩ := by
  have main : decodeEach xs =
      .ok (xs.filterMap (fun x => (Tournament.decode x).toOption)) := by
    induction xs with
    | nil => rfl
    | cons x rest ih =>
        have hx := h x (List.mem_cons_self x rest)
        have ih' := ih (fun y hy => h y (List.mem_cons_of_mem x hy))
        cases hd : Tournament.decode x with
        | ok t =>
            simp [decodeEach, hd, ih', DResult.map, List.filterMap_cons,
              DResult.toOption]
        | err e =>
            simp [decodeEach, hd, ih', List.filterMap_cons, DResult.toOption]
        | panic => exact absurd hd hx
  constructor
  · simp [decode_tournaments, asArray, main]
  · simp [Index.decode, decode_tournaments, asArray, main, DResult.map]

theorem claim_C7_witness :
    decode_tournaments (.arr [.obj [("tournament", .obj sampleTV)],
      .obj [("nope", .null)], .obj [("tournament", .obj sampleBare)]]) =
      .ok [mkTournament sampleTV, mkTournament sampleBare] := by
  have e1 : Tournament.decode (.obj [("tournament", .obj sampleTV)]) =
      .ok (mkTournament sampleTV) := decode_char _ _ rfl (by decide)
  have e2 : Tournament.decode (.obj [("nope", .null)]) =
      .err (.Decode "Unexpected absent key" (.str "tournament")) := rfl
  have e3 : Tournament.decode (.obj [("tournament", .obj sampleBare)]) =
      .ok (mkTournament sampleBare) := decode_char _ _ rfl (by decide)
  have h7 := (claim_C7 [.obj [("tournament", .obj sampleTV)],
      .obj [("nope", .null)], .obj [("tournament", .obj sampleBare)]]
    (by
      intro x hx
      fin_cases hx
      · simp [e1]
      · simp [e2]
      · simp [e3])).1
  rw [h7]
  simp [List.filterMap_cons, e1, e2, e3, DResult.toOption]

theorem claim_C7_counterexample :
    decode_tournaments (.arr [.obj [("tournament",
      .obj (jset sampleTV "created_at" (.str "19-01-2015")))]]) = .panic :=
  rfl

theorem parseF64_empty : parseF64 "" = none := rfl

/-- Projecting a decoded record at a field is the field's coercion of the
map's value at that field's key. -/
theorem projAll_mk (tv : JObj) (g : AllField) :
    projAll (mkTournament tv) g = coerceField g (lookD tv (keyAll g)) := by
  cases g <;> rfl

/-- Distinct fields are decoded from distinct keys. -/
theorem keyAll_inj : ∀ g g' : AllField, keyAll g = keyAll g' → g = g' := by
  decide

/-- A field with a coercion class is not one of the mandatory timestamps. -/
theorem keyAll_not_ts : ∀ (g : AllField) (c : MClass), mclassOf g = some c →
    keyAll g ≠ "created_at" ∧ keyAll g ≠ "updated_at" := by
  decide

/-- A wrong-typed value coerces to the class's documented default. -/
theorem coerce_default : ∀ (g : AllField) (c : MClass) (v : Json),
    mclassOf g = some c → wrongTyped c v = true →
    coerceField g v = defaultVal c := by
  intro g c v hg hw
  cases g <;> simp only [mclassOf] at hg <;>
    first
      | exact Option.noConfusion hg
      | (obtain rfl := (Option.some.inj hg).symm
         simp_all [coerceField, defaultVal, wrongTyped, boolD, u64D, strD,
           fltD, parseF64_empty, Option.isNone_iff_eq_none])

/-- Float-class fields coerce through the read-as-string-then-parse path. -/
theorem coerce_flt : ∀ g : AllField, mclassOf g = some .fltC →
    ∀ v : Json, coerceField g v = .q (fltD v) := by
  intro g hg v
  cases g <;> simp_all [mclassOf, coerceField]

theorem allPresent_jset (tv : JObj) (k : String) (v : Json)
    (h : allPresent tv = true) : allPresent (jset tv k v) = true := by
  simp only [allPresent, List.all_eq_true] at h ⊢
  intro x hx
  by_cases hxk : k = x
  · simp [jlookup_jset, hxk]
  · simp only [jlookup_jset, if_neg hxk]
    exact h x hx

theorem createdOk_jset (tv : JObj) (k : String) (v : Json)
    (hk : k ≠ "created_at") : createdOkB (jset tv k v) = createdOkB tv := by
  simp [createdOkB, lookD, jlookup_jset, hk]

theorem updatedOk_jset (tv : JObj) (k : String) (v : Json)
    (hk : k ≠ "updated_at") : updatedOkB (jset tv k v) = updatedOkB tv := by
  simp [updatedOkB, lookD, jlookup_jset, hk]

/-- Overwriting a non-timestamp key preserves well-formedness. -/
theorem wf_jset (tv : JObj) (k : String) (v : Json)
    (h : WellFormedB tv = true) (hc : k ≠ "created_at")
    (hu : k ≠ "updated_at") : WellFormedB (jset tv k v) = true := by
  simp only [WellFormedB, Bool.and_eq_true] at h ⊢
  refine ⟨⟨allPresent_jset _ _ _ h.1.1, ?_⟩, ?_⟩
  · rw [createdOk_jset _ _ _ hc]; exact h.1.2
  · rw [updatedOk_jset _ _ _ hu]; exact h.2

/-- C3: on a well-formed payload, replacing the value of any extracted
boolean/integer/float/string field by a wrong-typed value still decodes,
that field takes its documented default, and every other field is
unchanged. -/
theorem claim_C3 (m tv : JObj)
    (henv : jlookup m "tournament" = some (.obj tv))
    (hwf : WellFormedB tv = true) (fld : AllField) (c : MClass)
    (hc : mclassOf fld = some c) (junk : Json)
    (hj : wrongTyped c junk = true) :
    ∃ t t' : Tournament,
      Tournament.decode (.obj m) = .ok t ∧
      Tournament.decode (.obj (jset m "tournament"
        (.obj (jset tv (keyAll fld) junk)))) = .ok t' ∧
      projAll t' fld = defaultVal c ∧
      ∀ g : AllField, g ≠ fld → projAll t' g = projAll t g := by
  obtain ⟨hnc, hnu⟩ := keyAll_not_ts fld c hc
  have hwf' : WellFormedB (jset tv (keyAll fld) junk) = true :=
    wf_jset _ _ _ hwf hnc hnu
  refine ⟨mkTournament tv, mkTournament (jset tv (keyAll fld) junk),
    decode_char _ _ henv hwf, decode_char _ _ ?_ hwf', ?_, ?_⟩
  · simp [jlookup_jset]
  · rw [projAll_mk]
    have hl : lookD (jset tv (keyAll fld) junk) (keyAll fld) = junk := by
      simp [lookD, jlookup_jset]
    rw [hl]
    exact coerce_default fld c junk hc hj
  · intro g hg
    rw [projAll_mk, projAll_mk]
    have hne : keyAll g ≠ keyAll fld := fun he => hg (keyAll_inj g fld he)
    have hl : lookD (jset tv (keyAll fld) junk) (keyAll g) =
        lookD tv (keyAll g) := by
      simp [lookD, jlookup_jset, Ne.symm hne]
    rw [hl]

theorem claim_C3_witness :
    ∃ t t' : Tournament,
      Tournament.decode (.obj [("tournament", .obj sampleTV)]) = .ok t ∧
      Tournament.decode (.obj (jset [("tournament", .obj sampleTV)]
        "tournament" (.obj (jset sampleTV (keyAll .game_id) .null)))) =
        .ok t' ∧
      projAll t' .game_id = defaultVal .natC ∧
      ∀ g : AllField, g ≠ .game_id → projAll t' g = projAll t g :=
  claim_C3 [("tournament", .obj sampleTV)] sampleTV rfl (by decide)
    .game_id .natC rfl .null rfl

/-- C4: each scoring float field is read as a string and that string parsed
as a float; a non-string value (a native number included) or an unparsable
string yields the 0.0 default and decode still succeeds. -/
theorem claim_C4 (m tv : JObj)
    (henv : jlookup m "tournament" = some (.obj tv))
    (hwf : WellFormedB tv = true) (fld : AllField)
    (hf : mclassOf fld = some .fltC) :
    ∃ t : Tournament,
      Tournament.decode (.obj m) = .ok t ∧
      projAll t fld =
        .q ((parseF64 ((asString (lookD tv (keyAll fld))).getD "")).getD
          (.finite 0)) ∧
      (asString (lookD tv (keyAll fld)) = none →
        projAll t fld = .q (.finite 0)) ∧
      (∀ s : String, asString (lookD tv (keyAll fld)) = some s →
        parseF64 s = none → projAll t fld = .q (.finite 0)) := by
  refine ⟨mkTournament tv, decode_char _ _ henv hwf, ?_, ?_, ?_⟩
  · rw [projAll_mk, coerce_flt fld hf]
    rfl
  · intro h0
    rw [projAll_mk, coerce_flt fld hf]
    simp [fltD, h0, parseF64_empty]
  · intro s hs hn
    rw [projAll_mk, coerce_flt fld hf]
    simp [fltD, hs, hn]

theorem claim_C4_witness :
    ∃ t : Tournament,
      Tournament.decode (.obj [("tournament",
        .obj (jset sampleTV "pts_for_bye" (.f64 (.finite 1))))]) = .ok t ∧
      projAll t .pts_for_bye =
        .q ((parseF64 ((asString (lookD
          (jset sampleTV "pts_for_bye" (.f64 (.finite 1)))
          (keyAll .pts_for_bye))).getD "")).getD (.finite 0)) ∧
      (asString (lookD (jset sampleTV "pts_for_bye" (.f64 (.finite 1)))
          (keyAll .pts_for_bye)) = none →
        projAll t .pts_for_bye = .q (.finite 0)) ∧
      (∀ s : String, asString (lookD
          (jset sampleTV "pts_for_bye" (.f64 (.finite 1)))
          (keyAll .pts_for_bye)) = some s →
        parseF64 s = none → projAll t .pts_for_bye = .q (.finite 0)) :=
  claim_C4 [("tournament",
      .obj (jset sampleTV "pts_for_bye" (.f64 (.finite 1))))]
    (jset sampleTV "pts_for_bye" (.f64 (.finite 1))) rfl (by decide)
    .pts_for_bye rfl
